import Mathlib

/-!
Shallow embedding of the stock/inventory lifecycle engine of the `stok`
repository (src/app/__init__.py and src/app/models.py).

Database rows become Lean structures, the SQLAlchemy session becomes an
explicit `DB` state threaded through the operations, and each Flask
endpoint of the core becomes a function `DB → … → Except ApiErr DB`
(an `ApiErr` result models the endpoint returning an error response with
no commit, i.e. the transaction rolls back and the state is unchanged).
Python dicts with string values are modelled as association lists in
insertion order.  JSON payload fields arrive as `Option` parameters
(`none` models an absent key); integer fields arrive already parsed,
mirroring `parse_int_or_none`.
-/

namespace Stok

/-- Association-list model of a Python `dict[str, str]` (insertion order). -/
abbrev Dict := List (String × String)

/-- Python `str.strip()`, computed over the character list so that concrete
instances reduce in the kernel. -/
def pyStrip (s : String) : String :=
  ⟨((s.data.dropWhile Char.isWhitespace).reverse.dropWhile Char.isWhitespace).reverse⟩

/-- Python `str.lower()`, computed over the character list. -/
def pyLower (s : String) : String :=
  ⟨s.data.map Char.toLower⟩

/-- Python `sep.join(parts)`. -/
def joinSep (sep : String) : List String → String
  | [] => ""
  | [x] => x
  | x :: rest => x ++ sep ++ joinSep sep rest

/-- Whether `sub` starts `l`. -/
def leadsWith : List Char → List Char → Bool
  | [], _ => true
  | _ :: _, [] => false
  | a :: sub, b :: l => a == b && leadsWith sub l

/-- Python `sub in s` for strings, over character lists. -/
def containsSub (s sub : String) : Bool :=
  go s.data sub.data
where
  go : List Char → List Char → Bool
    | [], sub => sub.isEmpty
    | l@(_ :: t), sub => leadsWith sub l || go t sub

/-- `d.get(k)`: first binding of `k`, if any. -/
def dget (d : Dict) (k : String) : Option String :=
  (List.find? (fun p => p.1 == k) d).map (·.2)

/-- `k in d` for a dict. -/
def hasKey (d : Dict) (k : String) : Bool :=
  (List.find? (fun p => p.1 == k) d).isSome

/-- Python `d.update(u)`: keys of `d` keep their order (values overridden by
`u` where present); keys of `u` not in `d` are appended in `u`'s order. -/
def dictUpdate (d u : Dict) : Dict :=
  List.map (fun p => (p.1, (dget u p.1).getD p.2)) d
    ++ List.filter (fun p => !hasKey d p.1) u

/-- Python `s or None` for an optional string: empty collapses to `none`. -/
def strOrNone : Option String → Option String
  | none => none
  | some s => if s = "" then none else some s

/-- `DEFAULT_EVENT_ACTOR` from the source. -/
def DEFAULT_EVENT_ACTOR : String := "Sistem"

/-- `(performed_by or DEFAULT_EVENT_ACTOR).strip() or DEFAULT_EVENT_ACTOR`. -/
def actorName (performed_by : Option String) : String :=
  let base := match performed_by with
    | none => DEFAULT_EVENT_ACTOR
    | some s => if s = "" then DEFAULT_EVENT_ACTOR else s
  let trimmed := pyStrip base
  if trimmed = "" then DEFAULT_EVENT_ACTOR else trimmed

/-- Keys of `STOCK_CATEGORY_LABELS`. -/
def STOCK_CATEGORY_KEYS : List String :=
  ["envanter", "cevre_birimi", "yazici", "lisans", "talep", "manuel"]

/-- Keys of `STOCK_STATUS_LABELS`. -/
def STOCK_STATUS_KEYS : List String :=
  ["stokta", "devredildi", "arizali", "hurda"]

/-- `normalize_stock_category(value, fallback)` from the source. -/
def normalize_stock_category (value : Option String) (fallback : String) : String :=
  match value with
  | none => fallback
  | some v =>
    if v = "" then fallback
    else
      let normalized := pyLower (pyStrip v)
      if STOCK_CATEGORY_KEYS.contains normalized then normalized else fallback

/-- `normalize_stock_status(value, fallback)` from the source. -/
def normalize_stock_status (value : Option String) (fallback : String) : String :=
  match value with
  | none => fallback
  | some v =>
    if v = "" then fallback
    else
      let normalized := pyLower (pyStrip v)
      if STOCK_STATUS_KEYS.contains normalized then normalized else fallback

/-- One entry of a category's metadata schema (`STOCK_METADATA_FIELDS`
values).  `placeholder` and `options_key` are presentation-only and not
modelled. -/
structure StockField where
  key : String
  label : String
  required : Bool
  assignment_only : Bool
deriving Repr, DecidableEq

/-- `STOCK_METADATA_FIELDS` from the source, as a lookup function
(`dict.get(category, [])`). -/
def STOCK_METADATA_FIELDS : String → List StockField
  | "envanter" =>
    [⟨"inventory_no", "Envanter No", true, false⟩,
     ⟨"hardware_type", "Donanım Tipi", true, false⟩,
     ⟨"brand", "Marka", true, false⟩,
     ⟨"model", "Model", true, false⟩,
     ⟨"serial_no", "Seri No", false, false⟩,
     ⟨"computer_name", "Cihaz Adı", false, false⟩,
     ⟨"factory", "Fabrika", true, true⟩,
     ⟨"department", "Departman", true, true⟩,
     ⟨"responsible", "Sorumlu", true, true⟩,
     ⟨"ifs_no", "IFS No", false, true⟩]
  | "cevre_birimi" =>
    [⟨"hardware_type", "Donanım Tipi", true, false⟩,
     ⟨"brand", "Marka", false, false⟩,
     ⟨"model", "Model", false, false⟩,
     ⟨"serial_no", "Seri No", false, false⟩,
     ⟨"factory", "Fabrika", false, true⟩,
     ⟨"department", "Departman", false, true⟩,
     ⟨"responsible", "Sorumlu", true, true⟩]
  | "yazici" =>
    [⟨"inventory_no", "Envanter No", true, false⟩,
     ⟨"brand", "Marka", true, false⟩,
     ⟨"model", "Model", true, false⟩,
     ⟨"serial_no", "Seri No", false, false⟩,
     ⟨"usage_area", "Kullanım Alanı", false, true⟩,
     ⟨"factory", "Fabrika", true, true⟩,
     ⟨"hostname", "Hostname", false, true⟩,
     ⟨"ip_address", "IP Adresi", false, true⟩,
     ⟨"mac_address", "MAC Adresi", false, true⟩,
     ⟨"responsible", "Sorumlu", true, true⟩]
  | "lisans" =>
    [⟨"license_name", "Lisans Adı", true, false⟩,
     ⟨"license_key", "Lisans Anahtarı", true, false⟩,
     ⟨"inventory_no", "Bağlı Envanter", false, false⟩,
     ⟨"factory", "Fabrika", false, true⟩,
     ⟨"department", "Departman", false, true⟩,
     ⟨"responsible", "Sorumlu", false, true⟩]
  | "talep" =>
    [⟨"hardware_type", "Donanım Tipi", true, false⟩,
     ⟨"brand", "Marka", false, false⟩,
     ⟨"model", "Model", false, false⟩,
     ⟨"department", "Departman", false, false⟩]
  | "manuel" =>
    [⟨"hardware_type", "Donanım Tipi", true, false⟩,
     ⟨"brand", "Marka", false, false⟩,
     ⟨"model", "Model", false, false⟩]
  | _ => []

/-- `normalize_value` inside `prepare_stock_metadata`: a missing value is
`""`, a present value is stripped. -/
def normalizeValue : Option String → String
  | none => ""
  | some s => pyStrip s

/-- The schema loop of `prepare_stock_metadata`: builds `cleaned` in schema
order, failing on the first empty required field. -/
def cleanSchema : List StockField → Dict → Dict → Except String Dict
  | [], _, _ => .ok []
  | f :: rest, provided, defaults =>
    let v0 := normalizeValue (dget provided f.key)
    let v := if v0 = "" then normalizeValue (dget defaults f.key) else v0
    if v = "" && f.required then
      .error (f.label ++ " alanı zorunludur.")
    else
      match cleanSchema rest provided defaults with
      | .error e => .error e
      | .ok tail => .ok (if v = "" then tail else (f.key, v) :: tail)

/-- The pass-through loop of `prepare_stock_metadata`: extra payload keys not
already in `cleaned` are appended when their stripped value is nonempty. -/
def addExtras (cleaned : Dict) : Dict → Dict
  | [] => cleaned
  | (k, v) :: rest =>
    if hasKey cleaned k then addExtras cleaned rest
    else
      let normalized := pyStrip v
      if normalized = "" then addExtras cleaned rest
      else addExtras (cleaned ++ [(k, normalized)]) rest

/-- `prepare_stock_metadata(category, payload, defaults=…,
include_assignment_fields=…)` from the source.  The payload is already a
dict (`provided`); a non-dict payload in the source becomes `{}`, which a
caller models by passing `[]`. -/
def prepare_stock_metadata (category : String) (payload defaults : Dict)
    (include_assignment_fields : Bool) : Except String Dict :=
  let schema := STOCK_METADATA_FIELDS category
  let schema :=
    if include_assignment_fields then schema
    else List.filter (fun f => !f.assignment_only) schema
  match cleanSchema schema payload defaults with
  | .error e => .error e
  | .ok cleaned => .ok (addExtras cleaned payload)

/-! ## Data model (rows of models.py, with catalog foreign keys resolved
to their display names, which is how the core reads them) -/

/-- `InventoryItem` row.  The reference-catalog foreign keys
(`factory`, `hardware_type`, `brand`, `model`) and the responsible user are
modelled by the joined display name the core reads
(`item.factory.name`, `first_name + " " + last_name`, …). -/
structure InventoryItemS where
  id : Nat
  inventory_no : String
  computer_name : Option String
  factory : Option String
  department : String
  hardware_type : Option String
  responsible : Option String
  brand : Option String
  model : Option String
  serial_no : Option String
  ifs_no : Option String
  related_machine_no : Option String
  machine_no : Option String
  note : Option String
  status : String
deriving Repr, DecidableEq

/-- `InventoryEvent` row (append-only). -/
structure InventoryEventS where
  item_id : Nat
  event_type : String
  performed_by : String
  note : Option String
deriving Repr, DecidableEq

/-- `StockItem` row.  `metadata = none` models SQL NULL, `some d` a JSON
dict. -/
structure StockItemS where
  id : Nat
  source_type : String
  source_id : Option Nat
  inventory_item_id : Option Nat
  license_id : Option Nat
  reference_code : Option String
  title : String
  category : String
  quantity : Int
  unit : Option String
  status : String
  note : Option String
  metadata : Option Dict
deriving Repr, DecidableEq

/-- `StockLog` row (append-only).  The structured `metadata` snapshot is
not modelled: no verified property reads it. -/
structure StockLogS where
  stock_item_id : Nat
  action : String
  action_type : String
  performed_by : String
  quantity_change : Int
  note : Option String
deriving Repr, DecidableEq

/-- `ActivityLog` row (append-only).  The structured `metadata` payload is
not modelled: no verified property reads it. -/
structure ActivityLogS where
  area : String
  action : String
  description : Option String
  actor : String
deriving Repr, DecidableEq

/-- `RequestLine` row (the `category` column is added by
`ensure_request_line_category_column`). -/
structure RequestLineS where
  id : Nat
  hardware_type : String
  brand : String
  model : String
  quantity : Int
  note : Option String
  category : String
deriving Repr, DecidableEq

/-- `RequestOrder` row together with its owned lines; the `group`
relationship is modelled by the group's `key` (the three groups seeded by
`seed_request_data` are `acik`, `kapandi`, `iptal`). -/
structure RequestOrderS where
  id : Nat
  order_no : String
  requested_by : String
  department : String
  group_key : String
  lines : List RequestLineS
deriving Repr, DecidableEq

/-- `User` row (only the fields the core reads). -/
structure UserS where
  username : String
  first_name : String
  last_name : String
  system_role : String
deriving Repr, DecidableEq

/-- The relational store: one `DB` value is the committed database state.
`next_stock_id` models the `stock_items` autoincrement primary key; lists
are kept in insertion (= id) order like the underlying tables. -/
structure DB where
  inventory : List InventoryItemS
  events : List InventoryEventS
  stock : List StockItemS
  stock_logs : List StockLogS
  activities : List ActivityLogS
  orders : List RequestOrderS
  next_stock_id : Nat
deriving Repr, DecidableEq

/-- Error responses of the endpoints.  `nameError` models an unhandled
Python `NameError` escaping the handler (HTTP 500, transaction rolled
back); the others carry the HTTP statuses 400/404/409/403. -/
inductive ApiErr where
  | validation (msg : String)
  | notFound (msg : String)
  | conflict (msg : String)
  | forbidden (msg : String)
  | nameError (name : String)
deriving Repr, DecidableEq

/-! ## Shared lookup/update helpers (primary-key queries and row updates) -/

/-- `InventoryItem.query.get(item_id)` (with relations joined). -/
def findInventory (db : DB) (item_id : Nat) : Option InventoryItemS :=
  List.find? (fun x => x.id == item_id) db.inventory

/-- `StockItem.query.get(item_id)` (with relations joined). -/
def findStock (db : DB) (item_id : Nat) : Option StockItemS :=
  List.find? (fun x => x.id == item_id) db.stock

/-- `RequestOrder.query.get(order_id)` (with lines joined). -/
def findOrder (db : DB) (order_id : Nat) : Option RequestOrderS :=
  List.find? (fun x => x.id == order_id) db.orders

/-- Writing back a mutated `InventoryItem` ORM object. -/
def updateInventory (db : DB) (it : InventoryItemS) : DB :=
  { db with inventory := List.map (fun x => if x.id == it.id then it else x) db.inventory }

/-- Writing back a mutated `StockItem` ORM object. -/
def updateStock (db : DB) (s : StockItemS) : DB :=
  { db with stock := List.map (fun x => if x.id == s.id then s else x) db.stock }

/-- Writing back a mutated `RequestOrder` ORM object (with its lines). -/
def updateOrder (db : DB) (o : RequestOrderS) : DB :=
  { db with orders := List.map (fun x => if x.id == o.id then o else x) db.orders }

/-! ## Audit-trail helpers -/

/-- `record_activity(area=…, action=…, description=…, actor=…)`:
appends one `ActivityLog` row. -/
def record_activity (db : DB) (area action : String) (description : Option String)
    (actor : Option String) : DB :=
  { db with activities := db.activities ++
      [⟨area, action, strOrNone description, (actor.getD DEFAULT_EVENT_ACTOR)⟩] }

/-- `add_inventory_event(item, event_type, note, performed_by)`: appends one
`InventoryEvent` row and one `ActivityLog` row (area `envanter`). -/
def add_inventory_event (db : DB) (item : InventoryItemS) (event_type : String)
    (note : Option String) (performed_by : String) : DB :=
  let db := { db with events := db.events ++
      [⟨item.id, event_type, performed_by, strOrNone note⟩] }
  record_activity db "envanter" event_type note (some performed_by)

/-- `record_stock_log(stock_item, action, action_type=…, performed_by=…,
quantity_change=…, note=…, metadata=…)`: appends one `StockLog` row and one
`ActivityLog` row (area `stok`, description `note or stock_item.title`). -/
def record_stock_log (db : DB) (s : StockItemS) (action action_type : String)
    (performed_by : Option String) (quantity_change : Int) (note : Option String) : DB :=
  let actor := actorName performed_by
  let db := { db with stock_logs := db.stock_logs ++
      [⟨s.id, action, action_type, actor, quantity_change, strOrNone note⟩] }
  record_activity db "stok" action
    (some (match strOrNone note with | some n => n | none => s.title)) (some actor)

/-! ## Role helpers -/

/-- `SYSTEM_ROLE_LEVELS` membership. -/
def isSystemRole (r : String) : Bool :=
  r == "user" || r == "admin" || r == "superadmin"

/-- The numeric level of a (normalized) role. -/
def roleLevel (r : String) : Nat :=
  if r = "superadmin" then 2 else if r = "admin" then 1 else 0

/-- `get_system_role(user)` from the source. -/
def get_system_role (user : Option UserS) : String :=
  match user with
  | none => "user"
  | some u =>
    let role := pyLower (pyStrip (if u.system_role = "" then "user" else u.system_role))
    if isSystemRole role then role else "user"

/-- `has_system_role(user, required)` from the source. -/
def has_system_role (user : Option UserS) (required : String) : Bool :=
  let required_role := pyLower (pyStrip (if required = "" then "user" else required))
  let required_role := if isSystemRole required_role then required_role else "user"
  roleLevel (get_system_role user) ≥ roleLevel required_role

/-- `current_actor_name()` from the source, with the session's active user
passed explicitly. -/
def current_actor_name (user : Option UserS) : String :=
  match user with
  | none => DEFAULT_EVENT_ACTOR
  | some u =>
    let full_name := pyStrip (u.first_name ++ " " ++ u.last_name)
    if full_name ≠ "" then full_name
    else if u.username ≠ "" then u.username
    else DEFAULT_EVENT_ACTOR

/-! ## Inventory-side endpoints -/

/-- `mark_inventory_faulty` (POST /api/inventory/id/mark-faulty). -/
def mark_inventory_faulty (db : DB) (item_id : Nat)
    (reason_raw location_raw : Option String) : Except ApiErr DB :=
  match findInventory db item_id with
  | none => .error (.notFound "Envanter kaydı bulunamadı.")
  | some item =>
    let reason := pyStrip (reason_raw.getD "")
    let location := pyStrip (location_raw.getD "")
    let note_parts :=
      (if reason ≠ "" then ["Arıza Nedeni: " ++ reason] else [])
        ++ (if location ≠ "" then ["Gönderildiği Yer: " ++ location] else [])
    let item' := { item with status := "arizali" }
    let db := updateInventory db item'
    .ok (add_inventory_event db item' "Arıza bildirimi"
      (some (joinSep " • " note_parts)) DEFAULT_EVENT_ACTOR)

/-- `scrap_inventory` (POST /api/inventory/id/scrap). -/
def scrap_inventory (db : DB) (item_id : Nat) (note_raw : Option String) :
    Except ApiErr DB :=
  match findInventory db item_id with
  | none => .error (.notFound "Envanter kaydı bulunamadı.")
  | some item =>
    let note := pyStrip (note_raw.getD "")
    let item' := { item with status := "hurda",
                             note := if note ≠ "" then some note else item.note }
    let db := updateInventory db item'
    .ok (add_inventory_event db item' "Hurdaya ayırma" (some note) DEFAULT_EVENT_ACTOR)

/-- `restore_inventory_from_scrap`
(POST /api/inventory/id/restore-from-scrap). -/
def restore_inventory_from_scrap (db : DB) (item_id : Nat)
    (active_user : Option UserS) (note_raw : Option String) : Except ApiErr DB :=
  if ¬ has_system_role active_user "superadmin" then
    .error (.forbidden "Bu işlemi yapmak için yetkiniz yok.")
  else
    match findInventory db item_id with
    | none => .error (.notFound "Envanter kaydı bulunamadı.")
    | some item =>
      if pyLower item.status ≠ "hurda" then
        .error (.validation "Bu kayıt hurda durumunda değil.")
      else
        let cleaned_note := pyStrip (note_raw.getD "")
        let item' := { item with status := "stokta" }
        let db := updateInventory db item'
        let actor := current_actor_name active_user
        .ok (add_inventory_event db item' "Hurda kaydı geri alındı"
          (some (if cleaned_note ≠ "" then cleaned_note
                 else item.inventory_no ++ " kaydı stok durumuna döndürüldü."))
          actor)

/-! ## Stock Pool Engine -/

/-- `determine_stock_category_from_inventory(item, fallback="envanter")`. -/
def determine_stock_category_from_inventory (item : Option InventoryItemS) : String :=
  match item with
  | none => "envanter"
  | some it =>
    let hardware_name := it.hardware_type.getD ""
    if containsSub (pyLower hardware_name) "yazıcı" then "yazici" else "envanter"

/-- `build_inventory_stock_metadata(item)` from the source. -/
def build_inventory_stock_metadata (item : InventoryItemS) : Dict :=
  [("inventory_no", item.inventory_no),
   ("computer_name", item.computer_name.getD ""),
   ("hostname", item.computer_name.getD ""),
   ("factory", item.factory.getD ""),
   ("department", item.department),
   ("hardware_type", item.hardware_type.getD ""),
   ("brand", item.brand.getD ""),
   ("model", item.model.getD ""),
   ("serial_no", item.serial_no.getD ""),
   ("ifs_no", item.ifs_no.getD ""),
   ("ip_address", item.related_machine_no.getD ""),
   ("mac_address", item.machine_no.getD ""),
   ("responsible", item.responsible.getD "")]

/-- Values considered truthy by the `or`-chains over metadata values. -/
def truthyGet (d : Dict) (k : String) : Option String :=
  match dget d k with
  | none => none
  | some v => if v = "" then none else some v

/-- `create_stock_item_from_inventory(item, note=…, actor=…)`: inserts the
new `StockItem` row (flush assigns `next_stock_id`) and records the `in`
stock log. -/
def create_stock_item_from_inventory (db : DB) (item : InventoryItemS)
    (note : Option String) (actor : String) : DB × StockItemS :=
  let title0 := pyStrip (joinSep " " (List.filter (· ≠ "")
      [item.brand.getD "", item.model.getD ""]))
  let title := if title0 = "" then
      (if item.inventory_no = "" then "Envanter" else item.inventory_no)
    else title0
  let metadata_payload := build_inventory_stock_metadata item
  let s : StockItemS :=
    { id := db.next_stock_id
      source_type := "inventory"
      source_id := none
      inventory_item_id := some item.id
      license_id := none
      reference_code := some item.inventory_no
      title := title
      category := determine_stock_category_from_inventory (some item)
      quantity := 1
      unit := none
      status := "stokta"
      note := strOrNone note
      metadata := some (List.filter (fun p => p.2 ≠ "") metadata_payload) }
  let db := { db with stock := db.stock ++ [s], next_stock_id := db.next_stock_id + 1 }
  (record_stock_log db s "Stok girişi" "in" (some actor) 1 note, s)

/-- `InventoryLicense` row (only the fields the license producer path
reads; `item_id` is the nullable owning-item reference). -/
structure InventoryLicenseS where
  id : Nat
  item_id : Option Nat
  name : String
  status : String
deriving Repr, DecidableEq

/-- First-occurrence split of a character list at `sep`. -/
def splitOnceGo (sep : List Char) : List Char → Option (List Char × List Char)
  | [] => none
  | c :: rest =>
    if leadsWith sep (c :: rest) then some ([], (c :: rest).drop sep.length)
    else
      match splitOnceGo sep rest with
      | some (pre, post) => some (c :: pre, post)
      | none => none

/-- `split_license_name(value)`: split on the first `" - "` into
(display name, key), both stripped. -/
def split_license_name (value : String) : String × String :=
  if value = "" then ("", "")
  else
    match splitOnceGo " - ".data value.data with
    | some (pre, post) => (pyStrip ⟨pre⟩, pyStrip ⟨post⟩)
    | none => (pyStrip value, "")

/-- `create_stock_item_from_license(license, note=…, actor=…)`:
`associated_item` models the joined `license.item` relation. -/
def create_stock_item_from_license (db : DB) (license : InventoryLicenseS)
    (associated_item : Option InventoryItemS) (note : Option String) (actor : String) :
    DB × StockItemS :=
  let display_name := (split_license_name license.name).1
  let key := (split_license_name license.name).2
  let title := if display_name = "" then license.name else display_name
  let s : StockItemS :=
    { id := db.next_stock_id
      source_type := "license"
      source_id := none
      inventory_item_id := none
      license_id := some license.id
      reference_code := some license.name
      title := if title = "" then "Lisans" else title
      category := "lisans"
      quantity := 1
      unit := none
      status := "stokta"
      note := strOrNone note
      metadata := some
        [("license_key", key),
         ("license_name", if title = "" then "Lisans" else title),
         ("inventory_no", match associated_item with
            | some it => it.inventory_no
            | none => ""),
         ("department", match associated_item with
            | some it => it.department
            | none => ""),
         ("factory", match associated_item with
            | some it => it.factory.getD ""
            | none => "")] }
  let db := { db with stock := db.stock ++ [s], next_stock_id := db.next_stock_id + 1 }
  (record_stock_log db s "Lisans stok girişi" "in" (some actor) 1 note, s)

/-- The `existing_stock` query of `move_inventory_to_stock`: the stock row
referencing the inventory item with the greatest id
(`order_by(StockItem.id.desc()).first()`). -/
def latestStockForInventory (db : DB) (inv_id : Nat) : Option StockItemS :=
  List.foldl
    (fun acc s =>
      match acc with
      | none => some s
      | some b => if s.id ≥ b.id then some s else some b)
    none
    (List.filter (fun s => s.inventory_item_id == some inv_id) db.stock)

/-- `move_inventory_to_stock` (POST /api/inventory/id/stock): conflict
check, inventory status update + event, then either reuse-and-reset of the
existing pool row or creation of a fresh one. -/
def move_inventory_to_stock (db : DB) (item_id : Nat)
    (note_raw performed_by : Option String) : Except ApiErr DB :=
  match findInventory db item_id with
  | none => .error (.notFound "Envanter kaydı bulunamadı.")
  | some item =>
    let note := pyStrip (note_raw.getD "")
    let actor := actorName performed_by
    match latestStockForInventory db item.id with
    | some existing_stock =>
      if existing_stock.status = "stokta" then
        .error (.conflict "Bu envanter kaydı zaten stokta.")
      else
        let item' := { item with status := "stokta" }
        let db := updateInventory db item'
        let db := add_inventory_event db item' "Stok girişi" (some note) actor
        let metadata_payload := build_inventory_stock_metadata item'
        let es' := { existing_stock with
          status := "stokta"
          quantity := 1
          reference_code := some item'.inventory_no
          source_type := "inventory"
          inventory_item_id := some item'.id
          note := if note ≠ "" then some note else existing_stock.note
          metadata := some (List.filter (fun p => p.2 ≠ "") metadata_payload) }
        let db := updateStock db es'
        .ok (record_stock_log db es' "Envanter stoğa geri alındı" "in" (some actor) 0
          (some note))
    | none =>
      let item' := { item with status := "stokta" }
      let db := updateInventory db item'
      let db := add_inventory_event db item' "Stok girişi" (some note) actor
      .ok (create_stock_item_from_inventory db item' (some note) actor).1

/-- `create_stock_entry` (POST /api/stock, manual creation). -/
def create_stock_entry (db : DB) (title_raw category_raw : Option String)
    (quantity_raw : Option Int) (note_raw performed_by reference_raw unit_raw : Option String)
    (payload : Option Dict) : Except ApiErr DB :=
  let title := pyStrip (title_raw.getD "")
  if title = "" then .error (.validation "Stok adı zorunludur.")
  else
    let category := normalize_stock_category category_raw "envanter"
    let quantity := quantity_raw.getD 1
    if quantity < 1 then .error (.validation "Miktar en az 1 olmalıdır.")
    else
      let note := pyStrip (note_raw.getD "")
      let actor := actorName performed_by
      let reference_code := strOrNone (some (pyStrip (reference_raw.getD "")))
      let unit := strOrNone (some (pyStrip (unit_raw.getD "")))
      match prepare_stock_metadata category (payload.getD []) [] false with
      | .error msg => .error (.validation msg)
      | .ok metadata_payload =>
        let reference_code :=
          match reference_code with
          | some r => some r
          | none =>
            match truthyGet metadata_payload "inventory_no" with
            | some v => some v
            | none => truthyGet metadata_payload "license_key"
        let s : StockItemS :=
          { id := db.next_stock_id
            source_type := "manual"
            source_id := none
            inventory_item_id := none
            license_id := none
            reference_code := reference_code
            title := title
            category := category
            quantity := quantity
            unit := unit
            status := "stokta"
            note := strOrNone (some note)
            metadata := some (List.filter (fun p => p.2 ≠ "") metadata_payload) }
        let db := { db with stock := db.stock ++ [s], next_stock_id := db.next_stock_id + 1 }
        .ok (record_stock_log db s "Manuel stok girişi" "in" (some actor) s.quantity
          (some note))

/-- The inventory-mirroring step shared by the pool transitions
(`if stock_item.inventory_item:` in `assign_stock_item`,
`mark_stock_item_faulty`, `scrap_stock_item`): force the linked
`InventoryItem` to `new_status` and append an `InventoryEvent` there. -/
def mirrorInventoryStatus (db : DB) (link : Option Nat) (new_status : String)
    (event_type : String) (note : String) (actor : String) : DB :=
  match link.bind (findInventory db) with
  | some inventory =>
    let inventory2 := { inventory with status := new_status }
    let db := updateInventory db inventory2
    add_inventory_event db inventory2 event_type (some note) actor
  | none => db

/-- The `sanitize` closure of `assign_stock_item`: strip every value, drop
the empty ones. -/
def sanitize (values : Dict) : Dict :=
  List.filter (fun p => p.2 ≠ "") (List.map (fun p => (p.1, pyStrip p.2)) values)

/-- The metadata defaults of `assign_stock_item`: the item's stored
metadata overlaid with the nonempty fields of the linked inventory
snapshot. -/
def assignMetadataDefaults (db : DB) (stock_item : StockItemS) : Dict :=
  let base := stock_item.metadata.getD []
  match stock_item.inventory_item_id.bind (findInventory db) with
  | some it =>
    dictUpdate base (List.filter (fun p => p.2 ≠ "") (build_inventory_stock_metadata it))
  | none => base

/-- `assign_stock_item` (POST /api/stock/id/assign): assignment-inclusive
metadata validation over `assignMetadataDefaults`, status `devredildi`,
mirrored inventory status `aktif` + event when linked, `out` stock log, and
the extra `kullanici` activity when a responsible name resolved. -/
def assign_stock_item (db : DB) (item_id : Nat)
    (note_raw performed_by : Option String) (payload : Option Dict) : Except ApiErr DB :=
  match findStock db item_id with
  | none => .error (.notFound "Stok kaydı bulunamadı.")
  | some stock_item =>
    let note := pyStrip (note_raw.getD "")
    let actor := actorName performed_by
    let category_value := normalize_stock_category (some stock_item.category) "envanter"
    let metadata_defaults := assignMetadataDefaults db stock_item
    match prepare_stock_metadata category_value (payload.getD []) metadata_defaults true with
    | .error msg => .error (.validation msg)
    | .ok assignment_metadata =>
      let combined_metadata := dictUpdate (sanitize metadata_defaults) (sanitize assignment_metadata)
      let s' := { stock_item with
        metadata := if combined_metadata = [] then none else some combined_metadata
        status := "devredildi"
        note := if note ≠ "" then some note else stock_item.note }
      let db := updateStock db s'
      let db := mirrorInventoryStatus db stock_item.inventory_item_id "aktif"
        "Stoktan atama yapıldı"
        (if note ≠ "" then note else s'.title ++ " stoğa alınan ürün atandı.") actor
      let db := record_stock_log db s' "Stoktan atama yapıldı" "out" (some actor)
        (-(max 1 s'.quantity)) (some note)
      match truthyGet (s'.metadata.getD []) "responsible" with
      | some responsible_name =>
        .ok (record_activity db "kullanici" "Stok ataması"
          (some (s'.title ++ " → " ++ responsible_name)) (some actor))
      | none => .ok db

/-- `mark_stock_item_faulty` (POST /api/stock/id/mark-faulty). -/
def mark_stock_item_faulty (db : DB) (item_id : Nat)
    (note_raw performed_by : Option String) : Except ApiErr DB :=
  match findStock db item_id with
  | none => .error (.notFound "Stok kaydı bulunamadı.")
  | some stock_item =>
    let note := pyStrip (note_raw.getD "")
    let actor := actorName performed_by
    let s' := { stock_item with
      status := "arizali"
      note := if note ≠ "" then some note else stock_item.note }
    let db := updateStock db s'
    let db := mirrorInventoryStatus db stock_item.inventory_item_id "arizali"
      "Stok ürünü arızalı"
      (if note ≠ "" then note else s'.title ++ " stok kaydı arızalı işaretlendi.") actor
    .ok (record_stock_log db s' "Stok ürünü arızalı işaretlendi" "warning" (some actor) 0
      (some note))

/-- `scrap_stock_item` (POST /api/stock/id/scrap). -/
def scrap_stock_item (db : DB) (item_id : Nat)
    (note_raw performed_by : Option String) : Except ApiErr DB :=
  match findStock db item_id with
  | none => .error (.notFound "Stok kaydı bulunamadı.")
  | some stock_item =>
    let note := pyStrip (note_raw.getD "")
    let actor := actorName performed_by
    let s' := { stock_item with
      status := "hurda"
      note := if note ≠ "" then some note else stock_item.note }
    let db := updateStock db s'
    let db := mirrorInventoryStatus db stock_item.inventory_item_id "hurda"
      "Stok ürünü hurdaya ayrıldı"
      (if note ≠ "" then note else s'.title ++ " stok kaydı hurdaya ayrıldı.") actor
    .ok (record_stock_log db s' "Stok ürünü hurdaya ayrıldı" "out" (some actor)
      (-(max 1 s'.quantity)) (some note))

/-- `allow_operations` as derived in `serialize_stock_item`
(presentation layer): the normalized status equals `stokta`. -/
def allow_operations (s : StockItemS) : Bool :=
  normalize_stock_status (some s.status) "stokta" == "stokta"

/-! ## Request (purchase order) workflow -/

/-- `create_stock_item_from_request_line(order, line, quantity=…, note=…,
actor=…, category=…, metadata=…)`. -/
def create_stock_item_from_request_line (db : DB) (order : RequestOrderS)
    (line : RequestLineS) (quantity : Int) (note : Option String) (actor : String)
    (category : Option String) (metadata : Option Dict) : DB × StockItemS :=
  let title0 := pyStrip (joinSep " " (List.filter (· ≠ "") [line.brand, line.model]))
  let title := if title0 = "" then line.hardware_type else title0
  let category_input :=
    match category with
    | some c => if c = "" then line.category else c
    | none => line.category
  let category_value := normalize_stock_category (some category_input) "talep"
  let metadata_payload : Dict :=
    [("request_no", order.order_no),
     ("department", order.department),
     ("hardware_type", line.hardware_type),
     ("brand", line.brand),
     ("model", line.model)]
  let metadata_payload :=
    match metadata with
    | some m => dictUpdate metadata_payload m
    | none => metadata_payload
  let reference_code :=
    match truthyGet metadata_payload "inventory_no" with
    | some v => v
    | none =>
      match truthyGet metadata_payload "license_key" with
      | some v => v
      | none => order.order_no
  let s : StockItemS :=
    { id := db.next_stock_id
      source_type := "request"
      source_id := some order.id
      inventory_item_id := none
      license_id := none
      reference_code := some reference_code
      title := if title = "" then "Talep Öğesi" else title
      category := category_value
      quantity := max 1 quantity
      unit := none
      status := "stokta"
      note := strOrNone note
      metadata := some metadata_payload }
  let db := { db with stock := db.stock ++ [s], next_stock_id := db.next_stock_id + 1 }
  (record_stock_log db s "Talep stok girişi" "in" (some actor) s.quantity note, s)

/-- The three request groups seeded by `seed_request_data`;
`get_request_group_by_key` finds exactly these in a seeded database. -/
def REQUEST_GROUP_KEYS : List String := ["acik", "kapandi", "iptal"]

/-- The fulfillment loop of `update_request_status` (`stok` branch, source
lines 2243-2270): walks the target lines consuming
`min(available, remaining)`, creating one stock item per line touched, and
collecting the per-line quantity updates and the lines to remove.  Returns
the state after the loop, the processed quantity, the pending quantity
updates (line id, new quantity) and the ids of the lines to remove. -/
def fulfillLoop (order : RequestOrderS) (note : Option String) (actor : String)
    (category_value : String) (md : Option Dict) :
    List RequestLineS → Int → DB → Int → List (Nat × Int) → List Nat →
    DB × Int × List (Nat × Int) × List Nat
  | [], _, db, processed, updates, removes => (db, processed, updates, removes)
  | line :: rest, remaining, db, processed, updates, removes =>
    if remaining ≤ 0 then (db, processed, updates, removes)
    else
      let available_quantity := max 0 line.quantity
      if available_quantity ≤ 0 then
        fulfillLoop order note actor category_value md rest remaining db processed updates removes
      else
        let fulfill_quantity := min available_quantity remaining
        if fulfill_quantity ≤ 0 then
          fulfillLoop order note actor category_value md rest remaining db processed updates removes
        else
          let db := (create_stock_item_from_request_line db order line fulfill_quantity
            note actor (some category_value) md).1
          if fulfill_quantity ≥ available_quantity then
            fulfillLoop order note actor category_value md rest (remaining - fulfill_quantity)
              db (processed + fulfill_quantity) updates (removes ++ [line.id])
          else
            fulfillLoop order note actor category_value md rest (remaining - fulfill_quantity)
              db (processed + fulfill_quantity)
              (updates ++ [(line.id, available_quantity - fulfill_quantity)]) removes

/-- Applying the loop's pending mutations to the order's lines: quantity
updates through the aliased line objects, then removal/deletion of the
exhausted lines. -/
def applyLineChanges (lines : List RequestLineS) (updates : List (Nat × Int))
    (removes : List Nat) : List RequestLineS :=
  List.filterMap
    (fun ln =>
      if removes.contains ln.id then none
      else
        match List.find? (fun p => p.1 == ln.id) updates with
        | some p => some { ln with quantity := p.2 }
        | none => some ln)
    lines

/-- `update_request_status` (POST /api/requests/id/actions), translated
faithfully: after the order/line/action validation the source dereferences
the unbound name `requested_quantity` (src/app/__init__.py line 2204), so
every call that reaches the bounds check raises `NameError`. -/
def update_request_status (db : DB) (order_id : Nat)
    (action_raw : Option String) (quantity_raw : Option Int)
    (note_raw performed_by : Option String) (line_id : Option Int)
    (payload : Option Dict) : Except ApiErr DB :=
  match findOrder db order_id with
  | none => .error (.notFound "Talep kaydı bulunamadı.")
  | some order =>
    let action_key := pyLower (pyStrip (action_raw.getD ""))
    let _quantity := quantity_raw.getD 1
    let _note := strOrNone (some (pyStrip (note_raw.getD "")))
    let _actor := actorName performed_by
    let _payload := payload
    let target_lines_opt : Option (List RequestLineS) :=
      match line_id with
      | some l =>
        if l ≠ 0 then
          let tl := List.filter (fun ln => (ln.id : Int) == l) order.lines
          if tl = [] then none else some tl
        else some order.lines
      | none => some order.lines
    match target_lines_opt with
    | none => .error (.notFound "Talep satırı bulunamadı.")
    | some target_lines =>
      if action_key ≠ "stok" ∧ action_key ≠ "cancel" then
        .error (.validation "Geçersiz işlem tipi.")
      else
        let _total_quantity := (List.map (fun ln => ln.quantity) target_lines).sum
        .error (.nameError "requested_quantity")

/-- Modelled from the spec: `update_request_status` as §9's open question
says it was meant to behave — the source's bounds check (src lines
2204-2280) reads the unbound name `requested_quantity`, and the spec
directs implementers to take the requested quantity to be the parsed
`quantity` (default 1).  This definition binds
`requested_quantity := quantity` and otherwise translates
`update_request_status` (src lines 2175-2319) line by line. -/
def update_request_status_intended (db : DB) (order_id : Nat)
    (action_raw : Option String) (quantity_raw : Option Int)
    (note_raw performed_by : Option String) (line_id : Option Int)
    (payload : Option Dict) : Except ApiErr DB :=
  match findOrder db order_id with
  | none => .error (.notFound "Talep kaydı bulunamadı.")
  | some order =>
    let action_key := pyLower (pyStrip (action_raw.getD ""))
    let quantity := quantity_raw.getD 1
    let note := strOrNone (some (pyStrip (note_raw.getD "")))
    let actor := actorName performed_by
    let target_lines_opt : Option (List RequestLineS) :=
      match line_id with
      | some l =>
        if l ≠ 0 then
          let tl := List.filter (fun ln => (ln.id : Int) == l) order.lines
          if tl = [] then none else some tl
        else some order.lines
      | none => some order.lines
    match target_lines_opt with
    | none => .error (.notFound "Talep satırı bulunamadı.")
    | some target_lines =>
      if action_key ≠ "stok" ∧ action_key ≠ "cancel" then
        .error (.validation "Geçersiz işlem tipi.")
      else
        let requested_quantity := quantity
        let total_quantity := (List.map (fun ln => ln.quantity) target_lines).sum
        if requested_quantity < 1 then .error (.validation "Miktar en az 1 olmalıdır.")
        else if total_quantity ≤ 0 then
          .error (.validation "Talep satırları için geçerli miktar bulunamadı.")
        else if requested_quantity > total_quantity then
          .error (.validation "Maksimum işlem miktarı aşılamaz.")
        else if action_key = "stok" then
          let first_line := target_lines.head?
          let category_value := normalize_stock_category
            (first_line.map (fun ln => ln.category)) "envanter"
          let metadata_defaults : Dict :=
            match first_line with
            | some fl =>
              [("hardware_type", fl.hardware_type), ("brand", fl.brand), ("model", fl.model)]
            | none => []
          let metadata_defaults :=
            if order.department ≠ "" && !hasKey metadata_defaults "department" then
              metadata_defaults ++ [("department", order.department)]
            else metadata_defaults
          match prepare_stock_metadata category_value (payload.getD []) metadata_defaults false with
          | .error msg => .error (.validation msg)
          | .ok validated_metadata =>
            let remaining_quantity := min requested_quantity total_quantity
            let r := fulfillLoop order note actor category_value (some validated_metadata)
              target_lines remaining_quantity db 0 [] []
            let db := r.1
            let processed_quantity := r.2.1
            let lines' := applyLineChanges order.lines r.2.2.1 r.2.2.2
            if processed_quantity ≤ 0 then
              .error (.validation "İşlem yapılacak geçerli miktar bulunamadı.")
            else
              let remaining_total : Int := (List.map (fun ln => ln.quantity) lines').sum
              let target_group_key := if remaining_total ≤ 0 then "kapandi" else "acik"
              let order' := { order with
                lines := lines'
                group_key := if REQUEST_GROUP_KEYS.contains target_group_key then
                    target_group_key
                  else order.group_key }
              let db := updateOrder db order'
              .ok (record_activity db "talep" "Talep stok girişiyle kapandı" note (some actor))
        else
          let order' := { order with
            group_key := if REQUEST_GROUP_KEYS.contains "iptal" then "iptal"
              else order.group_key }
          let db := updateOrder db order'
          .ok (record_activity db "talep" "Talep iptal edildi" note (some actor))

/-! ## Concrete instances used by the claims -/

/-- A request line of quantity 5 (category `talep`, whose only required
creation-time metadata field is the hardware type supplied by the line). -/
def lineC1 : RequestLineS :=
  { id := 10, hardware_type := "Laptop", brand := "X", model := "Y",
    quantity := 5, note := none, category := "talep" }

/-- An open request order holding `lineC1`. -/
def orderC1 : RequestOrderS :=
  { id := 1, order_no := "SIP-9001", requested_by := "Ali Veli",
    department := "IT", group_key := "acik", lines := [lineC1] }

/-- A seeded database holding just `orderC1`. -/
def dbC1 : DB :=
  { inventory := [], events := [], stock := [], stock_logs := [],
    activities := [], orders := [orderC1], next_stock_id := 1 }

/-- A pool item outside `stokta` (category `manuel`, metadata already
holding the one required field), used to probe the status guard. -/
def stockC3 : StockItemS :=
  { id := 1, source_type := "manual", source_id := none, inventory_item_id := none,
    license_id := none, reference_code := none, title := "Klavye",
    category := "manuel", quantity := 1, unit := none, status := "hurda",
    note := none, metadata := some [("hardware_type", "Klavye")] }

/-- A database holding just `stockC3`. -/
def dbC3 : DB :=
  { inventory := [], events := [], stock := [stockC3], stock_logs := [],
    activities := [], orders := [], next_stock_id := 2 }

/-- A fully-populated inventory item: every metadata source field is
nonempty, so the later pool assignment validates from defaults alone. -/
def invC4 : InventoryItemS :=
  { id := 7, inventory_no := "ENV-0007", computer_name := some "IT-LAP-01",
    factory := some "Merkez", department := "IT",
    hardware_type := some "Dizüstü Bilgisayar", responsible := some "Ali Veli",
    brand := some "Marka", model := some "Model", serial_no := some "SER-1",
    ifs_no := some "IFS-1", related_machine_no := some "10.0.0.5",
    machine_no := some "AA:BB:CC:DD:EE:FF", note := none, status := "aktif" }

/-- A database holding just `invC4`. -/
def dbC4base : DB :=
  { inventory := [invC4], events := [], stock := [], stock_logs := [],
    activities := [], orders := [], next_stock_id := 1 }

/-- `dbC4base` after moving `invC4` to stock. -/
def dbC4 : DB := (move_inventory_to_stock dbC4base 7 none none).toOption.getD dbC4base

/-- The pool item created by that move. -/
def stockC4 : StockItemS := (findStock dbC4 1).getD stockC3

/-- The inventory item as stored in `dbC4` (status `stokta`). -/
def invC4s : InventoryItemS := (findInventory dbC4 7).getD invC4

/-- `dbC4` after assigning the pool item. -/
def dbC4res : DB := (assign_stock_item dbC4 1 none none none).toOption.getD dbC4

/-- A superadmin session user. -/
def superUser : UserS :=
  { username := "root", first_name := "Süper", last_name := "Admin",
    system_role := "superadmin" }

/-- An admin (below superadmin) session user. -/
def normalUser : UserS :=
  { username := "ali", first_name := "Ali", last_name := "Veli",
    system_role := "admin" }

/-- A scrapped inventory item. -/
def invC9 : InventoryItemS :=
  { invC4 with id := 9, inventory_no := "ENV-9001", status := "hurda" }

/-- A database holding just the scrapped `invC9`. -/
def dbC9 : DB :=
  { inventory := [invC9], events := [], stock := [], stock_logs := [],
    activities := [], orders := [], next_stock_id := 1 }

/-- An active (non-`hurda`) variant of `invC9`. -/
def invC9a : InventoryItemS := { invC9 with status := "aktif" }

/-- A database holding just `invC9a`. -/
def dbC9a : DB := { dbC9 with inventory := [invC9a] }

/-- `dbC4` after scrapping inventory item 7 through the inventory-side
endpoint. -/
def dbC10res : DB := (scrap_inventory dbC4 7 none).toOption.getD dbC4

/-- An assignable manual pool item (status `stokta`, no inventory link, no
responsible in metadata). -/
def stockC5 : StockItemS := { stockC3 with status := "stokta" }

/-- A database exercising every mutating endpoint at once: an active
inventory item (7), a scrapped one (9) and an assignable pool item (1). -/
def dbC5 : DB :=
  { inventory := [invC4, invC9], events := [], stock := [stockC5],
    stock_logs := [], activities := [], orders := [], next_stock_id := 2 }

/-- Results of the successful calls on `dbC5` (used by the C5 witness). -/
def dbC5m : DB := (move_inventory_to_stock dbC5 7 none none).toOption.getD dbC5

/-- `dbC5` after assigning pool item 1. -/
def dbC5a : DB := (assign_stock_item dbC5 1 none none none).toOption.getD dbC5

/-- `dbC5` after scrapping inventory item 7. -/
def dbC5sc : DB := (scrap_inventory dbC5 7 none).toOption.getD dbC5

/-- `dbC5` after marking inventory item 7 faulty. -/
def dbC5f : DB := (mark_inventory_faulty dbC5 7 none none).toOption.getD dbC5

/-- `dbC5` after the superadmin restore of inventory item 9. -/
def dbC5r : DB :=
  (restore_inventory_from_scrap dbC5 9 (some superUser) none).toOption.getD dbC5

/-- `dbC5` after a manual stock creation. -/
def dbC5e : DB :=
  (create_stock_entry dbC5 (some "Kablo") (some "manuel") (some 2) none none none none
    (some [("hardware_type", "Kablo")])).toOption.getD dbC5

/-- `dbC5` after marking pool item 1 faulty. -/
def dbC5sf : DB := (mark_stock_item_faulty dbC5 1 none none).toOption.getD dbC5

/-- `dbC5` after scrapping pool item 1. -/
def dbC5ss : DB := (scrap_stock_item dbC5 1 none none).toOption.getD dbC5

/-- A pool row referencing `invC4` in a non-`stokta` status, so the next
move reuses and resets it. -/
def stockC6 : StockItemS :=
  { stockC3 with inventory_item_id := some 7, status := "devredildi" }

/-- A database where moving `invC4` to stock takes the reuse path. -/
def dbC6 : DB :=
  { inventory := [invC4], events := [], stock := [stockC6], stock_logs := [],
    activities := [], orders := [], next_stock_id := 2 }

/-- `dbC6` after the reuse-and-reset move. -/
def dbC6r : DB := (move_inventory_to_stock dbC6 7 none none).toOption.getD dbC6

/-- A license row whose name carries the `"<product> - <key>"` convention. -/
def licC6 : InventoryLicenseS :=
  { id := 1, item_id := none, name := "Office - KEY123", status := "aktif" }

/-- The (action_type, quantity_change) view of a stock log row. -/
def logProj (l : StockLogS) : String × Int := (l.action_type, l.quantity_change)

/-! ## Helper lemmas -/

theorem find?_map_replace {α : Type} (idf : α → Nat) (i : Nat) (s s' : α)
    (hid : idf s' = idf s) :
    ∀ l : List α, List.find? (fun x => idf x == i) l = some s →
      List.find? (fun x => idf x == i)
        (List.map (fun x => if idf x == idf s' then s' else x) l) = some s' := by
  intro l
  induction l with
  | nil => intro h; exact absurd h (by simp)
  | cons a t ih =>
    intro h
    by_cases hpa : idf a = i
    · rw [List.find?_cons_of_pos _ (by simp [hpa])] at h
      injection h with h
      subst h
      simp only [List.map_cons]
      rw [if_pos (by simp [hid])]
      exact List.find?_cons_of_pos _ (by simp [hid, hpa])
    · rw [List.find?_cons_of_neg _ (by simp [hpa])] at h
      have hs : idf s = i := by simpa using List.find?_some h
      simp only [List.map_cons]
      rw [if_neg (by simp only [hid, beq_iff_eq]; intro hc; exact hpa (hc.trans hs))]
      rw [List.find?_cons_of_neg _ (by simp [hpa])]
      exact ih h

theorem findStock_updateStock {db : DB} {i : Nat} {s s' : StockItemS}
    (h : findStock db i = some s) (hid : s'.id = s.id) :
    findStock (updateStock db s') i = some s' :=
  find?_map_replace (fun x : StockItemS => x.id) i s s' hid db.stock h

theorem findInventory_updateInventory {db : DB} {i : Nat} {it it' : InventoryItemS}
    (h : findInventory db i = some it) (hid : it'.id = it.id) :
    findInventory (updateInventory db it') i = some it' :=
  find?_map_replace (fun x : InventoryItemS => x.id) i it it' hid db.inventory h

theorem stock_mirror (db : DB) (l : Option Nat) (st et n a : String) :
    (mirrorInventoryStatus db l st et n a).stock = db.stock := by
  unfold mirrorInventoryStatus
  rcases l.bind (findInventory db) with _ | it <;> rfl

theorem findStock_mirror (db : DB) (l : Option Nat) (st et n a : String) (i : Nat) :
    findStock (mirrorInventoryStatus db l st et n a) i = findStock db i := by
  unfold findStock
  rw [stock_mirror]

theorem findStock_record_stock_log (db : DB) (s : StockItemS) (ac at_ : String)
    (p : Option String) (q : Int) (n : Option String) (i : Nat) :
    findStock (record_stock_log db s ac at_ p q n) i = findStock db i := rfl

theorem findStock_record_activity (db : DB) (ar ac : String) (d actor : Option String)
    (i : Nat) :
    findStock (record_activity db ar ac d actor) i = findStock db i := rfl

theorem findStock_add_inventory_event (db : DB) (it : InventoryItemS) (e : String)
    (n : Option String) (p : String) (i : Nat) :
    findStock (add_inventory_event db it e n p) i = findStock db i := rfl

theorem findStock_updateInventory (db : DB) (it : InventoryItemS) (i : Nat) :
    findStock (updateInventory db it) i = findStock db i := rfl

theorem inventory_updateStock (db : DB) (s : StockItemS) :
    (updateStock db s).inventory = db.inventory := rfl

theorem findInventory_updateStock (db : DB) (s : StockItemS) (i : Nat) :
    findInventory (updateStock db s) i = findInventory db i := rfl

theorem findInventory_record_stock_log (db : DB) (s : StockItemS) (ac at_ : String)
    (p : Option String) (q : Int) (n : Option String) (i : Nat) :
    findInventory (record_stock_log db s ac at_ p q n) i = findInventory db i := rfl

theorem findInventory_record_activity (db : DB) (ar ac : String) (d actor : Option String)
    (i : Nat) :
    findInventory (record_activity db ar ac d actor) i = findInventory db i := rfl

theorem findInventory_add_inventory_event (db : DB) (it : InventoryItemS) (e : String)
    (n : Option String) (p : String) (i : Nat) :
    findInventory (add_inventory_event db it e n p) i = findInventory db i := rfl

theorem mirror_resolved {db : DB} {j : Nat} {inv : InventoryItemS} (st et n a : String)
    (hinv : findInventory db j = some inv) :
    mirrorInventoryStatus db (some j) st et n a
      = add_inventory_event (updateInventory db { inv with status := st })
          { inv with status := st } et (some n) a := by
  unfold mirrorInventoryStatus
  rw [show (some j).bind (findInventory db) = some inv from hinv]

theorem findInventory_mirror_updateStock {db : DB} {j : Nat} {inv : InventoryItemS}
    (s : StockItemS) (st et n a : String) (hinv : findInventory db j = some inv) :
    findInventory (mirrorInventoryStatus (updateStock db s) (some j) st et n a) j
      = some { inv with status := st } := by
  have h2 : findInventory (updateStock db s) j = some inv := hinv
  rw [mirror_resolved st et n a h2, findInventory_add_inventory_event]
  exact findInventory_updateInventory h2 rfl

theorem events_mirror_updateStock {db : DB} {j : Nat} {inv : InventoryItemS}
    (s : StockItemS) (st et n a : String) (hinv : findInventory db j = some inv) :
    (mirrorInventoryStatus (updateStock db s) (some j) st et n a).events
      = db.events ++ [⟨inv.id, et, a, strOrNone (some n)⟩] := by
  have h2 : findInventory (updateStock db s) j = some inv := hinv
  rw [mirror_resolved st et n a h2]
  rfl

theorem events_record_activity (db : DB) (ar ac : String) (d actor : Option String) :
    (record_activity db ar ac d actor).events = db.events := rfl

theorem events_record_stock_log (db : DB) (s : StockItemS) (ac at_ : String)
    (p : Option String) (q : Int) (n : Option String) :
    (record_stock_log db s ac at_ p q n).events = db.events := rfl

theorem events_updateStock (db : DB) (s : StockItemS) :
    (updateStock db s).events = db.events := rfl

theorem events_updateInventory (db : DB) (it : InventoryItemS) :
    (updateInventory db it).events = db.events := rfl

theorem events_add_inventory_event (db : DB) (it : InventoryItemS) (e : String)
    (n : Option String) (p : String) :
    (add_inventory_event db it e n p).events
      = db.events ++ [⟨it.id, e, p, strOrNone n⟩] := rfl

theorem findInventory_id {db : DB} {j : Nat} {inv : InventoryItemS}
    (h : findInventory db j = some inv) : inv.id = j := by
  have := List.find?_some (p := fun x : InventoryItemS => x.id == j) h
  simpa using this

theorem activities_updateStock (db : DB) (st : StockItemS) :
    (updateStock db st).activities = db.activities := rfl

theorem activities_updateInventory (db : DB) (it : InventoryItemS) :
    (updateInventory db it).activities = db.activities := rfl

theorem activities_updateOrder (db : DB) (o : RequestOrderS) :
    (updateOrder db o).activities = db.activities := rfl

theorem alen_record_activity (db : DB) (ar ac : String) (d actor : Option String) :
    (record_activity db ar ac d actor).activities.length = db.activities.length + 1 := by
  simp [record_activity]

theorem alen_record_stock_log (db : DB) (st : StockItemS) (ac at_ : String)
    (p : Option String) (q : Int) (n : Option String) :
    (record_stock_log db st ac at_ p q n).activities.length = db.activities.length + 1 := by
  simp [record_stock_log, record_activity]

theorem alen_add_inventory_event (db : DB) (it : InventoryItemS) (e : String)
    (n : Option String) (p : String) :
    (add_inventory_event db it e n p).activities.length = db.activities.length + 1 := by
  simp [add_inventory_event, record_activity]

theorem mirror_none_link (db : DB) (st et n a : String) :
    mirrorInventoryStatus db none st et n a = db := rfl

theorem mirror_updateStock_unresolved {db : DB} {j : Nat} (s : StockItemS)
    (st et n a : String) (h : findInventory db j = none) :
    mirrorInventoryStatus (updateStock db s) (some j) st et n a = updateStock db s := by
  unfold mirrorInventoryStatus
  rw [show (some j).bind (findInventory (updateStock db s)) = none from h]

theorem alen_mirror_updateStock_resolved {db : DB} {j : Nat} {inv : InventoryItemS}
    (s : StockItemS) (st et n a : String) (h : findInventory db j = some inv) :
    (mirrorInventoryStatus (updateStock db s) (some j) st et n a).activities.length
      = db.activities.length + 1 := by
  have h2 : findInventory (updateStock db s) j = some inv := h
  rw [mirror_resolved st et n a h2]
  rw [alen_add_inventory_event]
  rfl

theorem stock_logs_record_activity (db : DB) (ar ac : String) (d actor : Option String) :
    (record_activity db ar ac d actor).stock_logs = db.stock_logs := rfl

theorem stock_logs_record_stock_log (db : DB) (st : StockItemS) (ac at_ : String)
    (p : Option String) (q : Int) (n : Option String) :
    (record_stock_log db st ac at_ p q n).stock_logs
      = db.stock_logs ++ [⟨st.id, ac, at_, actorName p, q, strOrNone n⟩] := rfl

theorem findStock_updateStock_chain {db db2 : DB} {i : Nat} {s s' : StockItemS}
    (h : findStock db i = some s) (hstock : db2.stock = db.stock) (hid : s'.id = s.id) :
    findStock (updateStock db2 s') i = some s' := by
  have h2 : findStock db2 i = some s := by
    unfold findStock
    rw [hstock]
    exact h
  exact findStock_updateStock h2 hid

/-! ## Claims -/

/-- C8: for every category C in the fixed category set,
`prepare_stock_metadata(C, {}, defaults={}, includeAssignmentFields=true)`
fails iff C has at least one `required=true` field; when it fails the error
message is `<label> alanı zorunludur.` for the first such field, and when
it succeeds the result contains no empty values. -/
theorem spec_claim_C8 (c : String) (h : c ∈ STOCK_CATEGORY_KEYS) :
    (((prepare_stock_metadata c [] [] true).isOk = false) ↔
      (STOCK_METADATA_FIELDS c).any (fun f => f.required) = true)
    ∧ ((STOCK_METADATA_FIELDS c).any (fun f => f.required) = true →
        prepare_stock_metadata c [] [] true =
          .error ((((List.find? (fun f => f.required) (STOCK_METADATA_FIELDS c)).map
            (fun f => f.label)).getD "") ++ " alanı zorunludur."))
    ∧ (∀ r, prepare_stock_metadata c [] [] true = .ok r → ∀ p ∈ r, p.2 ≠ "") := by
  fin_cases h <;>
    exact ⟨by decide, fun _ => by rfl, fun r hr => nomatch hr⟩

/-- Witness for C8 at the category `lisans`: the call fails with the
message naming the first required field's label, `Lisans Adı`. -/
theorem spec_claim_C8_witness :
    (((prepare_stock_metadata "lisans" [] [] true).isOk = false) ↔
      (STOCK_METADATA_FIELDS "lisans").any (fun f => f.required) = true)
    ∧ ((STOCK_METADATA_FIELDS "lisans").any (fun f => f.required) = true →
        prepare_stock_metadata "lisans" [] [] true =
          .error ((((List.find? (fun f => f.required) (STOCK_METADATA_FIELDS "lisans")).map
            (fun f => f.label)).getD "") ++ " alanı zorunludur."))
    ∧ (∀ r, prepare_stock_metadata "lisans" [] [] true = .ok r → ∀ p ∈ r, p.2 ≠ "") :=
  spec_claim_C8 "lisans" (by decide)

/-- C1: on an `acik` order with one line of quantity 5, a `stok` action of
quantity 3 never succeeds in the source — the handler dereferences the
unbound `requested_quantity` (NameError, nothing committed).  Under the
intended binding `requested_quantity := quantity`
(`update_request_status_intended`), the action leaves the line at
quantity 2 with the group still `acik`, and a subsequent `stok` action of
quantity 2 removes the line and moves the group to `kapandi`. -/
theorem spec_claim_C1 :
    update_request_status dbC1 1 (some "stok") (some 3) none none none none
      = .error (.nameError "requested_quantity")
    ∧ (update_request_status_intended dbC1 1 (some "stok") (some 3) none none none none).map
        (fun db => db.orders.map (fun o => (o.group_key, o.lines.map (fun l => l.quantity))))
      = .ok [("acik", [2])]
    ∧ ((update_request_status_intended dbC1 1 (some "stok") (some 3) none none none none).bind
        (fun db1 =>
          update_request_status_intended db1 1 (some "stok") (some 2) none none none none)).map
        (fun db => db.orders.map (fun o => (o.group_key, o.lines.map (fun l => l.quantity))))
      = .ok [("kapandi", [])] :=
  ⟨by rfl, by rfl, by rfl⟩

/-- C2: the bounds check on the requested quantity never produces the
documented `ValidationError` in the source — both an under-request
(quantity 0) and an over-request (quantity 9 against a line sum of 5) hit
the unbound `requested_quantity` and raise `NameError` (HTTP 500), for
`stok` and `cancel` alike.  Under the intended binding
`requested_quantity := quantity` the bounds `[1, sum of eligible line
quantities]` are enforced with the expected `ValidationError` messages. -/
theorem spec_claim_C2 :
    update_request_status dbC1 1 (some "stok") (some 0) none none none none
      = .error (.nameError "requested_quantity")
    ∧ update_request_status dbC1 1 (some "stok") (some 9) none none none none
      = .error (.nameError "requested_quantity")
    ∧ update_request_status dbC1 1 (some "cancel") (some 1) none none none none
      = .error (.nameError "requested_quantity")
    ∧ update_request_status_intended dbC1 1 (some "stok") (some 0) none none none none
      = .error (.validation "Miktar en az 1 olmalıdır.")
    ∧ update_request_status_intended dbC1 1 (some "stok") (some 9) none none none none
      = .error (.validation "Maksimum işlem miktarı aşılamaz.")
    ∧ update_request_status_intended dbC1 1 (some "cancel") (some 0) none none none none
      = .error (.validation "Miktar en az 1 olmalıdır.") :=
  ⟨by rfl, by rfl, by rfl, by rfl, by rfl, by rfl⟩

/-- C3 counterexample: `stockC3` has status `hurda` (not `stokta`), yet
none of assign, mark-faulty, scrap is rejected server-side — each succeeds
and overwrites the status; `allow_operations` is false only in the
serializer. -/
theorem spec_claim_C3_counterexample :
    (assign_stock_item dbC3 1 none none none).map
        (fun db => (findStock db 1).map (fun s => s.status)) = .ok (some "devredildi")
    ∧ (mark_stock_item_faulty dbC3 1 none none).map
        (fun db => (findStock db 1).map (fun s => s.status)) = .ok (some "arizali")
    ∧ (scrap_stock_item dbC3 1 none none).map
        (fun db => (findStock db 1).map (fun s => s.status)) = .ok (some "hurda")
    ∧ allow_operations stockC3 = false :=
  ⟨by rfl, by rfl, by rfl, by rfl⟩

/-- C3 amended: the `status == stokta` eligibility is presentation-only
(`allow_operations` in the serializer); the endpoints perform no status
check.  For any existing pool item whose status is not `stokta`,
mark-faulty and scrap succeed and overwrite the status, and assign
succeeds as well whenever its metadata validation passes. -/
theorem spec_claim_C3 (db : DB) (i : Nat) (s : StockItemS) (md : Dict)
    (h : findStock db i = some s) (_hs : s.status ≠ "stokta")
    (hprep : prepare_stock_metadata (normalize_stock_category (some s.category) "envanter")
        [] (assignMetadataDefaults db s) true = .ok md) :
    ((mark_stock_item_faulty db i none none).map
        (fun db2 => (findStock db2 i).map (fun x => x.status)) = .ok (some "arizali"))
    ∧ ((scrap_stock_item db i none none).map
        (fun db2 => (findStock db2 i).map (fun x => x.status)) = .ok (some "hurda"))
    ∧ ((assign_stock_item db i none none none).map
        (fun db2 => (findStock db2 i).map (fun x => x.status)) = .ok (some "devredildi")) := by
  refine ⟨?_, ?_, ?_⟩
  · simp only [mark_stock_item_faulty, h, Except.map,
      findStock_record_stock_log, findStock_mirror]
    rw [findStock_updateStock h]
    · rfl
    · rfl
  · simp only [scrap_stock_item, h, Except.map,
      findStock_record_stock_log, findStock_mirror]
    rw [findStock_updateStock h]
    · rfl
    · rfl
  · simp only [assign_stock_item, h, Option.getD_none, hprep, Except.map]
    rcases htr : truthyGet ((({ s with
        metadata := if dictUpdate (sanitize (assignMetadataDefaults db s)) (sanitize md) = []
            then none
          else some (dictUpdate (sanitize (assignMetadataDefaults db s)) (sanitize md))
        status := "devredildi"
        note := s.note } : StockItemS).metadata).getD []) "responsible" with _ | r
    all_goals
      simp only [htr, Except.map, findStock_record_activity,
        findStock_record_stock_log, findStock_mirror]
    all_goals
      rw [findStock_updateStock h]
    all_goals rfl

/-- Witness for C3 at `dbC3`: the pool item with status `hurda` undergoes
all three transitions. -/
theorem spec_claim_C3_witness :
    ((mark_stock_item_faulty dbC3 1 none none).map
        (fun db2 => (findStock db2 1).map (fun x => x.status)) = .ok (some "arizali"))
    ∧ ((scrap_stock_item dbC3 1 none none).map
        (fun db2 => (findStock db2 1).map (fun x => x.status)) = .ok (some "hurda"))
    ∧ ((assign_stock_item dbC3 1 none none none).map
        (fun db2 => (findStock db2 1).map (fun x => x.status)) = .ok (some "devredildi")) :=
  spec_claim_C3 dbC3 1 stockC3 [("hardware_type", "Klavye")] (by rfl) (by decide) (by rfl)

/-- C4: a successful assign of an inventory-linked pool item sets the pool
status to `devredildi`, forces the linked inventory item to `aktif`, and
appends exactly one `InventoryEvent`, on that item. -/
theorem spec_claim_C4 (db db2 : DB) (i j : Nat) (s : StockItemS) (inv : InventoryItemS)
    (note_raw performed_by : Option String) (payload : Option Dict)
    (hstock : findStock db i = some s)
    (hlink : s.inventory_item_id = some j)
    (hinv : findInventory db j = some inv)
    (hok : assign_stock_item db i note_raw performed_by payload = .ok db2) :
    (findInventory db2 j).map (fun x => x.status) = some "aktif"
    ∧ (findStock db2 i).map (fun x => x.status) = some "devredildi"
    ∧ List.map (fun e => e.item_id) db2.events
        = List.map (fun e => e.item_id) db.events ++ [j] := by
  simp only [assign_stock_item, hstock] at hok
  rcases hprep : prepare_stock_metadata (normalize_stock_category (some s.category) "envanter")
      (payload.getD []) (assignMetadataDefaults db s) true with msg | md
  · simp only [hprep] at hok
    exact (Except.noConfusion hok)
  · simp only [hprep, hlink] at hok
    rcases htr : truthyGet ((if dictUpdate (sanitize (assignMetadataDefaults db s))
          (sanitize md) = [] then none
        else some (dictUpdate (sanitize (assignMetadataDefaults db s))
          (sanitize md))).getD []) "responsible" with _ | r <;>
      rw [htr] at hok <;>
      injection hok with hok <;>
      subst hok <;>
      refine ⟨?_, ?_, ?_⟩
    · rw [findInventory_record_stock_log,
        findInventory_mirror_updateStock _ _ _ _ _ hinv]
      rfl
    · rw [findStock_record_stock_log, findStock_mirror]
      rw [findStock_updateStock hstock]
      · rfl
      · rfl
    · rw [events_record_stock_log, events_mirror_updateStock _ _ _ _ _ hinv,
        List.map_append]
      simp [findInventory_id hinv]
    · rw [findInventory_record_activity, findInventory_record_stock_log,
        findInventory_mirror_updateStock _ _ _ _ _ hinv]
      rfl
    · rw [findStock_record_activity, findStock_record_stock_log, findStock_mirror]
      rw [findStock_updateStock hstock]
      · rfl
      · rfl
    · rw [events_record_activity, events_record_stock_log,
        events_mirror_updateStock _ _ _ _ _ hinv, List.map_append]
      simp [findInventory_id hinv]

/-- Witness for C4: move `invC4` to stock, then assign the resulting pool
item — the inventory item ends `aktif`, the pool item ends `devredildi`,
and one inventory event was appended for item 7. -/
theorem spec_claim_C4_witness :
    (findInventory dbC4res 7).map (fun x => x.status) = some "aktif"
    ∧ (findStock dbC4res 1).map (fun x => x.status) = some "devredildi"
    ∧ List.map (fun e => e.item_id) dbC4res.events
        = List.map (fun e => e.item_id) dbC4.events ++ [7] :=
  spec_claim_C4 dbC4 dbC4res 1 7 stockC4 invC4s none none none
    (by rfl) (by rfl) (by rfl) (by rfl)

/-- C7: moving an inventory item to stock while its (unique) referencing
pool row is already `stokta` fails with the 409 conflict; in particular the
second of two consecutive moves of `invC4` conflicts while the first
succeeds. -/
theorem spec_claim_C7 (db : DB) (i : Nat) (item : InventoryItemS) (es : StockItemS)
    (note actor : Option String)
    (h : findInventory db i = some item)
    (hfilter : List.filter (fun x => x.inventory_item_id == some item.id) db.stock = [es])
    (hst : es.status = "stokta") :
    move_inventory_to_stock db i note actor
      = .error (.conflict "Bu envanter kaydı zaten stokta.")
    ∧ (move_inventory_to_stock dbC4base 7 none none).isOk = true
    ∧ move_inventory_to_stock dbC4 7 none none
      = .error (.conflict "Bu envanter kaydı zaten stokta.") := by
  refine ⟨?_, by rfl, by rfl⟩
  have hl : latestStockForInventory db item.id = some es := by
    unfold latestStockForInventory
    rw [hfilter]
    rfl
  simp [move_inventory_to_stock, h, hl, hst]

/-- Witness for C7: the two-call scenario on `invC4`. -/
theorem spec_claim_C7_witness :
    move_inventory_to_stock dbC4 7 none none
      = .error (.conflict "Bu envanter kaydı zaten stokta.")
    ∧ (move_inventory_to_stock dbC4base 7 none none).isOk = true
    ∧ move_inventory_to_stock dbC4 7 none none
      = .error (.conflict "Bu envanter kaydı zaten stokta.") :=
  spec_claim_C7 dbC4 7 invC4s stockC4 none none (by rfl) (by rfl) (by rfl)

/-- C9: restore-from-scrap is 403 below superadmin; for a superadmin it is
400 when the item is not `hurda`, and otherwise flips `hurda → stokta`
appending exactly one `InventoryEvent` on that item. -/
theorem spec_claim_C9 (db : DB) (i : Nat) (user : Option UserS) (note : Option String)
    (item : InventoryItemS) (h : findInventory db i = some item) :
    (has_system_role user "superadmin" = false →
      restore_inventory_from_scrap db i user note
        = .error (.forbidden "Bu işlemi yapmak için yetkiniz yok."))
    ∧ (has_system_role user "superadmin" = true → pyLower item.status ≠ "hurda" →
      restore_inventory_from_scrap db i user note
        = .error (.validation "Bu kayıt hurda durumunda değil."))
    ∧ (has_system_role user "superadmin" = true → item.status = "hurda" →
      (restore_inventory_from_scrap db i user note).map
          (fun db2 => ((findInventory db2 i).map (fun x => x.status),
            List.map (fun e => e.item_id) db2.events))
        = .ok (some "stokta", List.map (fun e => e.item_id) db.events ++ [i])) := by
  refine ⟨?_, ?_, ?_⟩
  · intro hr
    simp [restore_inventory_from_scrap, hr]
  · intro hr hnot
    simp [restore_inventory_from_scrap, hr, h, hnot]
  · intro hr hst
    simp only [restore_inventory_from_scrap, hr, Bool.true_eq_false, not_false_eq_true,
      reduceIte, h, hst, show pyLower "hurda" = "hurda" from rfl, ne_eq,
      not_true_eq_false, if_false, Except.map]
    rw [findInventory_add_inventory_event]
    rw [findInventory_updateInventory h]
    · rw [events_add_inventory_event, events_updateInventory, List.map_append]
      simp [findInventory_id h]
    · rfl

/-- Witness for C9: admin blocked with 403; superadmin restore on `hurda`
succeeds to `stokta` with one event; superadmin restore on `aktif` is the
400 invalid-state error. -/
theorem spec_claim_C9_witness :
    restore_inventory_from_scrap dbC9 9 (some normalUser) none
      = .error (.forbidden "Bu işlemi yapmak için yetkiniz yok.")
    ∧ (restore_inventory_from_scrap dbC9 9 (some superUser) none).map
        (fun db2 => ((findInventory db2 9).map (fun x => x.status),
          List.map (fun e => e.item_id) db2.events)) = .ok (some "stokta", [9])
    ∧ restore_inventory_from_scrap dbC9a 9 (some superUser) none
      = .error (.validation "Bu kayıt hurda durumunda değil.") :=
  ⟨(spec_claim_C9 dbC9 9 (some normalUser) none invC9 (by rfl)).1 (by decide),
   (spec_claim_C9 dbC9 9 (some superUser) none invC9 (by rfl)).2.2 (by decide) (by rfl),
   (spec_claim_C9 dbC9a 9 (some superUser) none invC9a (by rfl)).2.1 (by decide) (by decide)⟩

/-- C10: the inventory-side scrap and mark-faulty endpoints never touch the
stock pool, its logs, or the request orders — a linked pool row can stay
`stokta` while its inventory item turns `hurda` or `arizali`. -/
theorem spec_claim_C10 (db : DB) (i : Nat) (note reason location : Option String) :
    (∀ db2, scrap_inventory db i note = .ok db2 →
      db2.stock = db.stock ∧ db2.stock_logs = db.stock_logs ∧ db2.orders = db.orders)
    ∧ (∀ db2, mark_inventory_faulty db i reason location = .ok db2 →
      db2.stock = db.stock ∧ db2.stock_logs = db.stock_logs ∧ db2.orders = db.orders)
    ∧ (scrap_inventory dbC4 7 none).map
        (fun db2 => ((findInventory db2 7).map (fun x => x.status),
          (findStock db2 1).map (fun x => x.status)))
      = .ok (some "hurda", some "stokta")
    ∧ (mark_inventory_faulty dbC4 7 none none).map
        (fun db2 => ((findInventory db2 7).map (fun x => x.status),
          (findStock db2 1).map (fun x => x.status)))
      = .ok (some "arizali", some "stokta") := by
  refine ⟨?_, ?_, by rfl, by rfl⟩
  · intro db2 hok
    rcases hfind : findInventory db i with _ | item
    · simp only [scrap_inventory, hfind] at hok
      exact (Except.noConfusion hok)
    · simp only [scrap_inventory, hfind] at hok
      injection hok with hok
      subst hok
      exact ⟨rfl, rfl, rfl⟩
  · intro db2 hok
    rcases hfind : findInventory db i with _ | item
    · simp only [mark_inventory_faulty, hfind] at hok
      exact (Except.noConfusion hok)
    · simp only [mark_inventory_faulty, hfind] at hok
      injection hok with hok
      subst hok
      exact ⟨rfl, rfl, rfl⟩

/-- Witness for C10: scrapping inventory item 7 of `dbC4` leaves the pool,
its logs and the orders untouched. -/
theorem spec_claim_C10_witness :
    dbC10res.stock = dbC4.stock ∧ dbC10res.stock_logs = dbC4.stock_logs
    ∧ dbC10res.orders = dbC4.orders :=
  (spec_claim_C10 dbC4 7 none none none).1 dbC10res (by rfl)

/-- C5 counterexample: a single state-changing call can append more than
one `ActivityLog` row — move-to-stock appends two (the inventory event's
and the stock log's), and an inventory-linked assign appends three (stock
log, inventory event, and the `kullanici` personal-assignment row). -/
theorem spec_claim_C5_counterexample :
    (move_inventory_to_stock dbC4base 7 none none).map
        (fun db2 => db2.activities.length) = .ok 2
    ∧ (assign_stock_item dbC4 1 none none none).map
        (fun db2 => db2.activities.length) = .ok (dbC4.activities.length + 3) :=
  ⟨by rfl, by rfl⟩

/-- C5 amended: every state-changing call appends at least one
`ActivityLog` row in the same commit, but not exactly one: move-to-stock
appends exactly two; a pool assign appends between one and three (stock
log, plus the mirrored inventory event when linked, plus the `kullanici`
row when a responsible resolves); pool mark-faulty/scrap append one or two;
the single-entity inventory calls (mark-faulty, scrap, restore) and manual
stock creation append exactly one. -/
theorem spec_claim_C5 (db db2m db2a db2sc db2f db2r db2e db2sf db2ss : DB)
    (im ia isc ifl ir isf iss : Nat) (u : Option UserS)
    (nm am na aa nsc rs ls nr t c n pb rc un n2 a2 n3 a3 : Option String)
    (q : Option Int) (pa pl : Option Dict)
    (hmove : move_inventory_to_stock db im nm am = .ok db2m)
    (hassign : assign_stock_item db ia na aa pa = .ok db2a)
    (hscrap : scrap_inventory db isc nsc = .ok db2sc)
    (hfault : mark_inventory_faulty db ifl rs ls = .ok db2f)
    (hrest : restore_inventory_from_scrap db ir u nr = .ok db2r)
    (hentry : create_stock_entry db t c q n pb rc un pl = .ok db2e)
    (hsfault : mark_stock_item_faulty db isf n2 a2 = .ok db2sf)
    (hsscrap : scrap_stock_item db iss n3 a3 = .ok db2ss) :
    db2m.activities.length = db.activities.length + 2
    ∧ (db.activities.length + 1 ≤ db2a.activities.length
        ∧ db2a.activities.length ≤ db.activities.length + 3)
    ∧ db2sc.activities.length = db.activities.length + 1
    ∧ db2f.activities.length = db.activities.length + 1
    ∧ db2r.activities.length = db.activities.length + 1
    ∧ db2e.activities.length = db.activities.length + 1
    ∧ (db.activities.length + 1 ≤ db2sf.activities.length
        ∧ db2sf.activities.length ≤ db.activities.length + 2)
    ∧ (db.activities.length + 1 ≤ db2ss.activities.length
        ∧ db2ss.activities.length ≤ db.activities.length + 2) := by
  refine ⟨?_, ?_, ?_, ?_, ?_, ?_, ?_, ?_⟩
  · rcases hfind : findInventory db im with _ | item
    · simp only [move_inventory_to_stock, hfind] at hmove
      exact (Except.noConfusion hmove)
    · simp only [move_inventory_to_stock, hfind] at hmove
      rcases hlatest : latestStockForInventory db item.id with _ | es
      · simp only [hlatest] at hmove
        injection hmove with hmove
        subst hmove
        simp only [create_stock_item_from_inventory, alen_record_stock_log,
          alen_add_inventory_event, activities_updateInventory]
      · simp only [hlatest] at hmove
        by_cases hst2 : es.status = "stokta"
        · simp [hst2] at hmove
        · simp only [hst2, if_neg, if_false, reduceIte] at hmove
          injection hmove with hmove
          subst hmove
          simp only [alen_record_stock_log, activities_updateStock,
            alen_add_inventory_event, activities_updateInventory]
  · rcases hfinds : findStock db ia with _ | sa
    · simp only [assign_stock_item, hfinds] at hassign
      exact (Except.noConfusion hassign)
    · simp only [assign_stock_item, hfinds] at hassign
      rcases hprep : prepare_stock_metadata
          (normalize_stock_category (some sa.category) "envanter")
          (pa.getD []) (assignMetadataDefaults db sa) true with msg | md
      · simp only [hprep] at hassign
        exact (Except.noConfusion hassign)
      · simp only [hprep] at hassign
        rcases htr : truthyGet ((if dictUpdate (sanitize (assignMetadataDefaults db sa))
              (sanitize md) = [] then none
            else some (dictUpdate (sanitize (assignMetadataDefaults db sa))
              (sanitize md))).getD []) "responsible" with _ | r <;>
          rw [htr] at hassign <;>
          injection hassign with hassign <;>
          subst hassign <;>
          simp only [alen_record_activity, alen_record_stock_log] <;>
          rcases hli : sa.inventory_item_id with _ | j
        · rw [mirror_none_link, activities_updateStock]
          omega
        · rcases hfind2 : findInventory db j with _ | inv
          · rw [mirror_updateStock_unresolved _ _ _ _ _ hfind2, activities_updateStock]
            omega
          · rw [alen_mirror_updateStock_resolved _ _ _ _ _ hfind2]
            omega
        · rw [mirror_none_link, activities_updateStock]
          omega
        · rcases hfind2 : findInventory db j with _ | inv
          · rw [mirror_updateStock_unresolved _ _ _ _ _ hfind2, activities_updateStock]
            omega
          · rw [alen_mirror_updateStock_resolved _ _ _ _ _ hfind2]
            omega
  · rcases hfind : findInventory db isc with _ | item
    · simp only [scrap_inventory, hfind] at hscrap
      exact (Except.noConfusion hscrap)
    · simp only [scrap_inventory, hfind] at hscrap
      injection hscrap with hscrap
      subst hscrap
      simp only [alen_add_inventory_event, activities_updateInventory]
  · rcases hfind : findInventory db ifl with _ | item
    · simp only [mark_inventory_faulty, hfind] at hfault
      exact (Except.noConfusion hfault)
    · simp only [mark_inventory_faulty, hfind] at hfault
      injection hfault with hfault
      subst hfault
      simp only [alen_add_inventory_event, activities_updateInventory]
  · by_cases hrole : has_system_role u "superadmin"
    · rcases hfind : findInventory db ir with _ | item
      · simp only [restore_inventory_from_scrap, hrole, hfind] at hrest
        simp at hrest
      · simp only [restore_inventory_from_scrap, hrole, hfind] at hrest
        by_cases hst : pyLower item.status = "hurda"
        · simp only [hst, not_true_eq_false, if_false, ne_eq, not_false_eq_true,
            reduceIte] at hrest
          injection hrest with hrest
          subst hrest
          simp only [alen_add_inventory_event, activities_updateInventory]
        · simp [hst] at hrest
    · simp [restore_inventory_from_scrap, hrole] at hrest
  · by_cases ht : pyStrip (t.getD "") = ""
    · simp [create_stock_entry, ht] at hentry
    · by_cases hq : (q.getD 1) < 1
      · simp [create_stock_entry, ht, hq] at hentry
      · rcases hpe : prepare_stock_metadata (normalize_stock_category c "envanter")
            (pl.getD []) [] false with m | mdd
        · simp [create_stock_entry, ht, hq, hpe] at hentry
        · simp only [create_stock_entry, ht, hq, hpe, if_neg, if_false, reduceIte] at hentry
          injection hentry with hentry
          subst hentry
          rw [alen_record_stock_log]
  · rcases hfinds : findStock db isf with _ | sa
    · simp only [mark_stock_item_faulty, hfinds] at hsfault
      exact (Except.noConfusion hsfault)
    · simp only [mark_stock_item_faulty, hfinds] at hsfault
      injection hsfault with hsfault
      subst hsfault
      simp only [alen_record_stock_log]
      rcases hli : sa.inventory_item_id with _ | j
      · rw [mirror_none_link, activities_updateStock]
        omega
      · rcases hfind2 : findInventory db j with _ | inv
        · rw [mirror_updateStock_unresolved _ _ _ _ _ hfind2, activities_updateStock]
          omega
        · rw [alen_mirror_updateStock_resolved _ _ _ _ _ hfind2]
          omega
  · rcases hfinds : findStock db iss with _ | sa
    · simp only [scrap_stock_item, hfinds] at hsscrap
      exact (Except.noConfusion hsscrap)
    · simp only [scrap_stock_item, hfinds] at hsscrap
      injection hsscrap with hsscrap
      subst hsscrap
      simp only [alen_record_stock_log]
      rcases hli : sa.inventory_item_id with _ | j
      · rw [mirror_none_link, activities_updateStock]
        omega
      · rcases hfind2 : findInventory db j with _ | inv
        · rw [mirror_updateStock_unresolved _ _ _ _ _ hfind2, activities_updateStock]
          omega
        · rw [alen_mirror_updateStock_resolved _ _ _ _ _ hfind2]
          omega

/-- Witness for C5 at `dbC5`: the eight operations succeed and their
activity-row deltas fall in the proven ranges. -/
theorem spec_claim_C5_witness :
    dbC5m.activities.length = dbC5.activities.length + 2
    ∧ (dbC5.activities.length + 1 ≤ dbC5a.activities.length
        ∧ dbC5a.activities.length ≤ dbC5.activities.length + 3)
    ∧ dbC5sc.activities.length = dbC5.activities.length + 1
    ∧ dbC5f.activities.length = dbC5.activities.length + 1
    ∧ dbC5r.activities.length = dbC5.activities.length + 1
    ∧ dbC5e.activities.length = dbC5.activities.length + 1
    ∧ (dbC5.activities.length + 1 ≤ dbC5sf.activities.length
        ∧ dbC5sf.activities.length ≤ dbC5.activities.length + 2)
    ∧ (dbC5.activities.length + 1 ≤ dbC5ss.activities.length
        ∧ dbC5ss.activities.length ≤ dbC5.activities.length + 2) :=
  spec_claim_C5 dbC5 dbC5m dbC5a dbC5sc dbC5f dbC5r dbC5e dbC5sf dbC5ss
    7 1 7 7 9 1 1 (some superUser)
    none none none none none none none none (some "Kablo") (some "manuel")
    none none none none none none none none
    (some 2) none (some [("hardware_type", "Kablo")])
    (by rfl) (by rfl) (by rfl) (by rfl) (by rfl) (by rfl) (by rfl) (by rfl)

/-- C6 counterexample: the reuse-and-reset path of `move_inventory_to_stock`
writes its one StockLog with action_type `in` but `quantity_change = 0`,
while the resulting pool row's quantity is 1. -/
theorem spec_claim_C6_counterexample :
    (move_inventory_to_stock dbC6 7 none none).map
        (fun db2 => (List.map logProj db2.stock_logs,
          (findStock db2 1).map (fun x => x.quantity)))
      = .ok ([("in", 0)], some 1) := by rfl

/-- C6 amended: every creation path (from an inventory item, a license, a
request line, or manual input) writes exactly one StockLog with
action_type `in` and `quantity_change` equal to the resulting quantity;
the reuse-and-reset path also writes exactly one `in` StockLog but with
`quantity_change = 0` (the resulting quantity is reset to 1). -/
theorem spec_claim_C6 (dbA dbB dbC dbD dbE db2D db2E : DB) (itemA : InventoryItemS)
    (lic : InventoryLicenseS) (assoc : Option InventoryItemS)
    (ordC : RequestOrderS) (lineC : RequestLineS) (qC : Int)
    (noteA noteB noteC : Option String) (actorA actorB actorC : String)
    (catC : Option String) (mdC : Option Dict)
    (tD cD nD pbD rcD unD : Option String) (qD : Option Int) (plD : Option Dict)
    (iE : Nat) (itemE : InventoryItemS) (esE : StockItemS) (nE aE : Option String)
    (hD : create_stock_entry dbD tD cD qD nD pbD rcD unD plD = .ok db2D)
    (hfindE : findInventory dbE iE = some itemE)
    (hlatestE : latestStockForInventory dbE itemE.id = some esE)
    (hfindsE : findStock dbE esE.id = some esE)
    (hstE : esE.status ≠ "stokta")
    (hE : move_inventory_to_stock dbE iE nE aE = .ok db2E) :
    (List.map logProj (create_stock_item_from_inventory dbA itemA noteA actorA).1.stock_logs
        = List.map logProj dbA.stock_logs ++ [("in", 1)]
      ∧ (create_stock_item_from_inventory dbA itemA noteA actorA).2.quantity = 1)
    ∧ (List.map logProj (create_stock_item_from_license dbB lic assoc noteB actorB).1.stock_logs
        = List.map logProj dbB.stock_logs ++ [("in", 1)]
      ∧ (create_stock_item_from_license dbB lic assoc noteB actorB).2.quantity = 1)
    ∧ List.map logProj
        (create_stock_item_from_request_line dbC ordC lineC qC noteC actorC catC mdC).1.stock_logs
        = List.map logProj dbC.stock_logs
          ++ [("in", (create_stock_item_from_request_line dbC ordC lineC qC
                noteC actorC catC mdC).2.quantity)]
    ∧ List.map logProj db2D.stock_logs
        = List.map logProj dbD.stock_logs ++ [("in", qD.getD 1)]
    ∧ (List.map logProj db2E.stock_logs = List.map logProj dbE.stock_logs ++ [("in", 0)]
      ∧ (findStock db2E esE.id).map (fun x => x.quantity) = some 1) := by
  refine ⟨⟨?_, by rfl⟩, ⟨?_, by rfl⟩, ?_, ?_, ?_⟩
  · simp only [create_stock_item_from_inventory, stock_logs_record_stock_log,
      List.map_append]
    rfl
  · simp only [create_stock_item_from_license, stock_logs_record_stock_log,
      List.map_append]
    rfl
  · simp only [create_stock_item_from_request_line, stock_logs_record_stock_log,
      List.map_append]
    rfl
  · by_cases ht : pyStrip (tD.getD "") = ""
    · simp [create_stock_entry, ht] at hD
    · by_cases hq : (qD.getD 1) < 1
      · simp [create_stock_entry, ht, hq] at hD
      · rcases hpe : prepare_stock_metadata (normalize_stock_category cD "envanter")
            (plD.getD []) [] false with m | mdd
        · simp [create_stock_entry, ht, hq, hpe] at hD
        · simp only [create_stock_entry, ht, hq, hpe, if_neg, if_false, reduceIte] at hD
          injection hD with hD
          subst hD
          simp only [stock_logs_record_stock_log, List.map_append]
          rfl
  · simp only [move_inventory_to_stock, hfindE, hlatestE] at hE
    rw [if_neg hstE] at hE
    injection hE with hE
    subst hE
    constructor
    · simp only [stock_logs_record_stock_log, List.map_append]
      rfl
    · rw [findStock_record_stock_log]
      rw [findStock_updateStock_chain hfindsE] <;> rfl

/-- Witness for C6: concrete instances of all five paths (the manual path
reuses the `dbC5` creation, the reuse path runs on `dbC6`). -/
theorem spec_claim_C6_witness :
    (List.map logProj (create_stock_item_from_inventory dbC5 invC4 none "Sistem").1.stock_logs
        = List.map logProj dbC5.stock_logs ++ [("in", 1)]
      ∧ (create_stock_item_from_inventory dbC5 invC4 none "Sistem").2.quantity = 1)
    ∧ (List.map logProj (create_stock_item_from_license dbC5 licC6 none none "Sistem").1.stock_logs
        = List.map logProj dbC5.stock_logs ++ [("in", 1)]
      ∧ (create_stock_item_from_license dbC5 licC6 none none "Sistem").2.quantity = 1)
    ∧ List.map logProj
        (create_stock_item_from_request_line dbC5 orderC1 lineC1 2 none "Sistem" none none).1.stock_logs
        = List.map logProj dbC5.stock_logs
          ++ [("in", (create_stock_item_from_request_line dbC5 orderC1 lineC1 2
                none "Sistem" none none).2.quantity)]
    ∧ List.map logProj dbC5e.stock_logs
        = List.map logProj dbC5.stock_logs ++ [("in", (some (2 : Int)).getD 1)]
    ∧ (List.map logProj dbC6r.stock_logs = List.map logProj dbC6.stock_logs ++ [("in", 0)]
      ∧ (findStock dbC6r stockC6.id).map (fun x => x.quantity) = some 1) :=
  spec_claim_C6 dbC5 dbC5 dbC5 dbC5 dbC6 dbC5e dbC6r invC4 licC6 none orderC1 lineC1 2
    none none none "Sistem" "Sistem" "Sistem" none none
    (some "Kablo") (some "manuel") none none none none (some 2)
    (some [("hardware_type", "Kablo")])
    7 invC4 stockC6 none none
    (by rfl) (by rfl) (by rfl) (by rfl) (by decide) (by rfl)

end Stok
